import Mathlib

set_option maxRecDepth 16000

/-!
Verification of the badssl certificate-authority core against its
natural-language specification. The Go sources are shallowly embedded:
the external collaborators (RSA key generation, the ASN.1 DER
encoder/parser, the PEM wrapper) are modelled as injective constructors
over the data they carry, exactly as the spec treats them (trusted,
already-correct libraries consumed through narrow interfaces), while
every function of the repository itself is translated statement by
statement from the source.
-/

namespace Badssl

/-- Model of a Go time.Time instant, counted in nanoseconds. -/
abbrev Time := Int

/-- Model of a Go time.Duration, counted in nanoseconds. -/
abbrev Duration := Int

/-- Model of an rsa.PublicKey, identified by the key material it belongs to. -/
structure RSAPublicKey where
  keyId : Nat
deriving DecidableEq

/-- Model of an rsa.PrivateKey, identified by its key material. -/
structure RSAPrivateKey where
  keyId : Nat
deriving DecidableEq

/-- Public half of an RSA private key (Go field k.PublicKey). -/
def RSAPrivateKey.pub (k : RSAPrivateKey) : RSAPublicKey := ⟨k.keyId⟩

/-- PrivateKey wraps an rsa.PrivateKey (source part_002). -/
structure PrivateKey where
  privateKey : RSAPrivateKey
deriving DecidableEq

/-- PublicKey wraps an rsa.PrivateKey and is meant to expose the associated
public key (source part_002). Note the wrapped field is the private key
itself, exactly as in the source. -/
structure PublicKey where
  privateKey : RSAPrivateKey
deriving DecidableEq

/-- Model of Go x509.Certificate restricted to the fields this repository
sets or reads. A freshly built template leaves issuerCommonName at the Go
zero value "" and publicKey/signature at none (nil in Go); parsing signed
DER fills all three. The signature field records the public half of the
key whose private half produced the signature. -/
structure X509Certificate where
  serialNumber : Int
  subjectCommonName : String
  issuerCommonName : String
  notBefore : Time
  notAfter : Time
  keyUsage : Nat
  extKeyUsage : List Nat
  basicConstraintsValid : Bool
  isCA : Bool
  publicKey : Option RSAPublicKey
  signature : Option RSAPublicKey
deriving DecidableEq

/-- Model of DER byte data: the decodable contents the ASN.1 layer (an
external collaborator, spec section 1) can recover from it, plus raw
undecodable bytes. -/
inductive DERData where
  | certDER (tbs : X509Certificate)
  | keyDER (k : RSAPrivateKey)
  | pubKeyDER (k : RSAPublicKey)
  | raw (bytes : List Nat)
deriving DecidableEq

/-- Model of Go x509.CreateCertificate: serializes the template with the
issuer taken from the parent certificate subject, embeds the subject
public key, and signs with the issuer private key. -/
def x509CreateCertificate (template parent : X509Certificate)
    (pub : RSAPublicKey) (priv : RSAPrivateKey) : DERData :=
  DERData.certDER { template with
    issuerCommonName := parent.subjectCommonName
    publicKey := some pub
    signature := some priv.pub }

/-- Model of Go x509.ParseCertificate. -/
def x509ParseCertificate : DERData → Except String X509Certificate
  | DERData.certDER tbs => Except.ok tbs
  | _ => Except.error "x509: malformed certificate"

/-- Model of Go x509.ParsePKCS1PrivateKey. -/
def x509ParsePKCS1PrivateKey : DERData → Except String RSAPrivateKey
  | DERData.keyDER k => Except.ok k
  | _ => Except.error "x509: failed to parse private key"

/-- Argument type of Go x509.MarshalPKIXPublicKey, which takes an untyped
any value. -/
inductive PKIXInput where
  | rsaPub (k : RSAPublicKey)
  | rsaPriv (k : RSAPrivateKey)
deriving DecidableEq

/-- Model of Go x509.MarshalPKIXPublicKey: marshals a supported public key
and rejects any other argument type, in particular an rsa.PrivateKey. -/
def x509MarshalPKIXPublicKey : PKIXInput → Except String DERData
  | PKIXInput.rsaPub k => Except.ok (DERData.pubKeyDER k)
  | PKIXInput.rsaPriv _ => Except.error "x509: unsupported public key type"

/-- Model of RSA signature verification against a public key: the
signature produced by a private key verifies exactly against the public
half of that key. -/
def X509Certificate.verifiesWith (c : X509Certificate)
    (pub : RSAPublicKey) : Prop :=
  c.signature = some pub

/-- Model of one PEM block (Go pem.Block), restricted to the fields the
repository uses. -/
structure PEMBlock where
  type : String
  bytes : DERData
deriving DecidableEq

/-- Model of PEM byte data as seen by pem.Decode: zero-length data,
non-empty data in which no block can be decoded (its first byte and the
rest spelled out so that it is non-empty by construction), or data whose
first decodable block is b. -/
inductive PEMData where
  | empty
  | noBlock (first : Nat) (rest : List Nat)
  | withBlock (b : PEMBlock)
deriving DecidableEq

/-- Models the Go test len(data) == 0. -/
def PEMData.isZeroLength : PEMData → Bool
  | PEMData.empty => true
  | _ => false

/-- Model of Go pem.Decode restricted to the found block (every caller in
this repository discards the remainder). -/
def pemDecode : PEMData → Option PEMBlock
  | PEMData.withBlock b => some b
  | _ => none

/-- Model of Go pem.Encode into a bytes.Buffer, which cannot fail: the
buffer afterwards holds exactly one decodable block. -/
def pemEncode (b : PEMBlock) : PEMData := PEMData.withBlock b

/-- decodePEMData (source part_001): rejects zero-length input, then
decodes the first PEM block, failing when none is found. -/
def decodePEMData (data : PEMData) : Except String PEMBlock :=
  if data.isZeroLength then Except.error "zero-length PEM block"
  else
    match pemDecode data with
    | none => Except.error "no PEM block could be decoded"
    | some block => Except.ok block

/-- PrivateKey.Public (source part_002): wraps the same rsa.PrivateKey in
a PublicKey view. -/
def PrivateKey.Public (k : PrivateKey) : PublicKey := ⟨k.privateKey⟩

/-- PublicKey.GetPEM (source part_002): marshals k.privateKey — the
wrapped private key itself, not its public component — through
MarshalPKIXPublicKey, then wraps the DER in a PUBLIC KEY block. -/
def PublicKey.GetPEM (k : PublicKey) : Except String PEMData :=
  match x509MarshalPKIXPublicKey (PKIXInput.rsaPriv k.privateKey) with
  | Except.error e => Except.error e
  | Except.ok der => Except.ok (pemEncode ⟨"PUBLIC KEY", der⟩)

/-- ParseKeyDER (source part_002). -/
def ParseKeyDER (data : DERData) : Except String PrivateKey :=
  match x509ParsePKCS1PrivateKey data with
  | Except.error e => Except.error e
  | Except.ok key => Except.ok ⟨key⟩

/-- ParseKeyPEM (source part_002): decodes a block, then returns early
with an error when the block type is not RSA PRIVATE KEY (the Go %q
quoting of the offending tag is elided from the message). -/
def ParseKeyPEM (data : PEMData) : Except String PrivateKey :=
  match decodePEMData data with
  | Except.error e => Except.error e
  | Except.ok block =>
    if block.type ≠ "RSA PRIVATE KEY" then
      Except.error ("PEM block is not of type RSA PRIVATE KEY: " ++ block.type)
    else
      ParseKeyDER block.bytes

/-- The certificate struct (source part_001): the paired private key
(possibly nil), the parsed form, and the DER form. -/
structure CertificateS where
  privateKey : Option PrivateKey
  cert : X509Certificate
  der : DERData
deriving DecidableEq

/-- certDERToPEM (source part_001): wraps DER bytes in a CERTIFICATE
block; pem.Encode into a buffer cannot fail. -/
def certDERToPEM (der : DERData) : Except String PEMData :=
  Except.ok (pemEncode ⟨"CERTIFICATE", der⟩)

/-- certificate.GetPEM (source part_001). -/
def CertificateS.GetPEM (c : CertificateS) : Except String PEMData :=
  certDERToPEM c.der

/-- certificate.GetKey (source part_001). -/
def CertificateS.GetKey (c : CertificateS) : Option PrivateKey :=
  c.privateKey

/-- parseCertificateDER (source part_001): parses the bytes and stores the
parsed form, the supplied key and the input bytes. -/
def parseCertificateDER (data : DERData) (k : Option PrivateKey) :
    Except String CertificateS :=
  match x509ParseCertificate data with
  | Except.error e => Except.error e
  | Except.ok cert => Except.ok { cert := cert, privateKey := k, der := data }

/-- parseCertificatePEM (source part_001): decodes a block; the source
assigns an error to the named return err when the block type is not
CERTIFICATE, but without a return statement, so the subsequent return of
parseCertificateDER overwrites err and the assignment has no effect on
the result — faithfully, the type check vanishes from the data flow. -/
def parseCertificatePEM (data : PEMData) (k : Option PrivateKey) :
    Except String CertificateS :=
  match decodePEMData data with
  | Except.error e => Except.error e
  | Except.ok block => parseCertificateDER block.bytes k

/-- ParseCertificatePEM (source part_001). -/
def ParseCertificatePEM (data : PEMData) (k : Option PrivateKey) :
    Except String CertificateS :=
  parseCertificatePEM data k

/-- ParseCertificateDER (source part_001). -/
def ParseCertificateDER (data : DERData) (k : Option PrivateKey) :
    Except String CertificateS :=
  parseCertificateDER data k

/-- Entropy drawn from the process-wide random source during one call:
the raw uniform value consumed by rand.Int for the serial draw and the
key produced by rsa.GenerateKey when a key is generated (entropy-source
failure is outside the model, per spec section 7 it is fatal and
propagated unchanged). -/
structure Entropy where
  serialRaw : Nat
  freshKey : RSAPrivateKey
deriving DecidableEq

/-- CertOptions (source part_000). -/
structure CertOptions where
  ValidFor : Duration
  CommonName : String
deriving DecidableEq

/-- RootCAKeyUsage (source part_000): KeyUsageKeyEncipherment,
KeyUsageDigitalSignature and KeyUsageCertSign or-ed together (Go values
4, 1 and 32). -/
def RootCAKeyUsage : Nat := 4 ||| 1 ||| 32

/-- Go x509.ExtKeyUsageServerAuth (value 1). -/
def ExtKeyUsageServerAuth : Nat := 1

/-- Model of Go rand.Int(rand.Reader, max): a value in the interval
[0, max), computed from the raw uniform draw. -/
def randInt (raw : Nat) (max : Int) : Int := (raw : Int) % max

/-- randomSerialNumber (source part_000): rand.Int with the limit
1 shifted left by 128. -/
def randomSerialNumber (raw : Nat) : Int := randInt raw (2 ^ 128)

/-- NewPrivateKey (source part_002): generates a key from the random
source. -/
def NewPrivateKey (ent : Entropy) : PrivateKey := ⟨ent.freshKey⟩

/-- Shared prologue of NewAuthority and authority.NewCert (source
part_000): if the supplied key is nil, generate one. -/
def resolveKey (k : Option PrivateKey) (ent : Entropy) : PrivateKey :=
  match k with
  | none => NewPrivateKey ent
  | some key => key

/-- newAuthorityCertificate (source part_000): the self-signed CA
template. -/
def newAuthorityCertificate (o : CertOptions) (raw : Nat) (now : Time) :
    X509Certificate :=
  { serialNumber := randomSerialNumber raw
    subjectCommonName := o.CommonName
    issuerCommonName := ""
    notBefore := now
    notAfter := now + o.ValidFor
    keyUsage := RootCAKeyUsage
    extKeyUsage := [ExtKeyUsageServerAuth]
    basicConstraintsValid := true
    isCA := true
    publicKey := none
    signature := none }

/-- newServerCertificate (source part_000): the leaf template, with key
usage 0 and no extended key usage. -/
def newServerCertificate (o : CertOptions) (raw : Nat) (now : Time) :
    X509Certificate :=
  { serialNumber := randomSerialNumber raw
    subjectCommonName := o.CommonName
    issuerCommonName := ""
    notBefore := now
    notAfter := now + o.ValidFor
    keyUsage := 0
    extKeyUsage := []
    basicConstraintsValid := true
    isCA := false
    publicKey := none
    signature := none }

/-- The authority struct (source part_000): wraps a certificate. -/
structure AuthorityS where
  c : CertificateS
deriving DecidableEq

/-- ParseAuthorityDER (source part_000). -/
def ParseAuthorityDER (data : DERData) (k : Option PrivateKey) :
    Except String AuthorityS :=
  match parseCertificateDER data k with
  | Except.error e => Except.error e
  | Except.ok c => Except.ok ⟨c⟩

/-- ParseAuthorityPEM (source part_000). -/
def ParseAuthorityPEM (data : PEMData) (k : Option PrivateKey) :
    Except String AuthorityS :=
  match parseCertificatePEM data k with
  | Except.error e => Except.error e
  | Except.ok c => Except.ok ⟨c⟩

/-- authority.GetPEM (source part_000). -/
def AuthorityS.GetPEM (a : AuthorityS) : Except String PEMData :=
  a.c.GetPEM

/-- authority.GetKey (source part_000). -/
def AuthorityS.GetKey (a : AuthorityS) : Option PrivateKey :=
  a.c.GetKey

/-- authority.Reload (source part_000). -/
def AuthorityS.Reload (a : AuthorityS) : Except String AuthorityS :=
  ParseAuthorityDER a.c.der a.c.privateKey

/-- NewAuthority (source part_000): resolves the key, builds the CA
template, self-signs it (the template is both subject and parent), and
reloads the freshly signed bytes before returning. -/
def NewAuthority (k : Option PrivateKey) (o : CertOptions) (ent : Entropy)
    (now : Time) : Except String AuthorityS :=
  AuthorityS.Reload ⟨{
    cert := newAuthorityCertificate o ent.serialRaw now
    privateKey := some (resolveKey k ent)
    der := x509CreateCertificate (newAuthorityCertificate o ent.serialRaw now)
      (newAuthorityCertificate o ent.serialRaw now)
      (resolveKey k ent).privateKey.pub
      (resolveKey k ent).privateKey }⟩

/-- authority.NewCert (source part_000): resolves the key, builds the
leaf template, and signs it with the authority's parsed certificate as
issuer and the authority's private key as signer. The result pairs the
new certificate with the authority state after the call (the method body
assigns to no field of the receiver); none models the nil-pointer
dereference Go performs when the authority holds no private key. -/
def AuthorityS.NewCert (a : AuthorityS) (k : Option PrivateKey)
    (o : CertOptions) (ent : Entropy) (now : Time) :
    Option (CertificateS × AuthorityS) :=
  match a.c.privateKey with
  | none => none
  | some ak =>
    some ({ cert := newServerCertificate o ent.serialRaw now
            privateKey := some (resolveKey k ent)
            der := x509CreateCertificate
              (newServerCertificate o ent.serialRaw now)
              a.c.cert (resolveKey k ent).privateKey.pub ak.privateKey },
          a)

/-- Concrete parsed CA certificate used by witnesses and counterexamples:
the certificate minted by NewAuthority with generated key id 1, serial
raw draw 5, options (ValidFor 100, CommonName root), at time 0. -/
def demoCert : X509Certificate :=
  { serialNumber := 5
    subjectCommonName := "root"
    issuerCommonName := "root"
    notBefore := 0
    notAfter := 100
    keyUsage := RootCAKeyUsage
    extKeyUsage := [ExtKeyUsageServerAuth]
    basicConstraintsValid := true
    isCA := true
    publicKey := some ⟨1⟩
    signature := some ⟨1⟩ }

/-- Concrete authority holding demoCert together with private key 1 and
the matching DER bytes. -/
def demoAuthority : AuthorityS :=
  ⟨{ privateKey := some ⟨⟨1⟩⟩
     cert := demoCert
     der := DERData.certDER demoCert }⟩

/-- Concrete leaf certificate value returned by demoAuthority.NewCert
with generated key id 2, serial raw draw 7, options (ValidFor 10,
CommonName leaf), at time 0. -/
def demoLeaf : CertificateS :=
  { privateKey := some ⟨⟨2⟩⟩
    cert := newServerCertificate ⟨10, "leaf"⟩ 7 0
    der := x509CreateCertificate (newServerCertificate ⟨10, "leaf"⟩ 7 0)
      demoCert (RSAPrivateKey.pub ⟨2⟩) ⟨1⟩ }

/-- Helper: a certificate produced by parseCertificateDER stores as its
parsed form exactly the parse of its stored DER bytes, and stores the
input bytes unchanged. -/
theorem parseCertificateDER_consistent (data : DERData)
    (k : Option PrivateKey) (c : CertificateS)
    (h : parseCertificateDER data k = Except.ok c) :
    x509ParseCertificate c.der = Except.ok c.cert ∧ c.der = data := by
  cases data with
  | certDER tbs =>
      injection h with h
      subst h
      exact ⟨rfl, rfl⟩
  | keyDER kk => exact Except.noConfusion h
  | pubKeyDER kk => exact Except.noConfusion h
  | raw bytes => exact Except.noConfusion h

/-- Helper: parseCertificatePEM satisfies the same parsed/DER consistency. -/
theorem parseCertificatePEM_consistent (data : PEMData)
    (k : Option PrivateKey) (c : CertificateS)
    (h : parseCertificatePEM data k = Except.ok c) :
    x509ParseCertificate c.der = Except.ok c.cert := by
  cases data with
  | empty => exact Except.noConfusion h
  | noBlock f r => exact Except.noConfusion h
  | withBlock b => exact (parseCertificateDER_consistent b.bytes k c h).1

/-- Helper: ParseAuthorityDER satisfies parsed/DER consistency for the
wrapped certificate. -/
theorem parseAuthorityDER_consistent (data : DERData)
    (k : Option PrivateKey) (a : AuthorityS)
    (h : ParseAuthorityDER data k = Except.ok a) :
    x509ParseCertificate a.c.der = Except.ok a.c.cert := by
  cases data with
  | certDER tbs =>
      injection h with h
      subst h
      exact rfl
  | keyDER kk => exact Except.noConfusion h
  | pubKeyDER kk => exact Except.noConfusion h
  | raw bytes => exact Except.noConfusion h

/-- Helper: ParseAuthorityPEM satisfies parsed/DER consistency for the
wrapped certificate. -/
theorem parseAuthorityPEM_consistent (data : PEMData)
    (k : Option PrivateKey) (a : AuthorityS)
    (h : ParseAuthorityPEM data k = Except.ok a) :
    x509ParseCertificate a.c.der = Except.ok a.c.cert := by
  cases data with
  | empty => exact Except.noConfusion h
  | noBlock f r => exact Except.noConfusion h
  | withBlock b =>
      obtain ⟨t, bs⟩ := b
      cases bs with
      | certDER tbs =>
          injection h with h
          subst h
          exact rfl
      | keyDER kk => exact Except.noConfusion h
      | pubKeyDER kk => exact Except.noConfusion h
      | raw bytes => exact Except.noConfusion h

/-- C1: evidence of the code bug. A PEM block tagged RSA PRIVATE KEY
whose bytes happen to be valid certificate DER is accepted by
parseCertificatePEM with no error: the wrong-tag error is assigned to
the named return err but never returned, so the tail call to
parseCertificateDER overwrites it and the payload is silently accepted
under the wrong tag. ParseKeyPEM, whose wrong-tag branch does return,
correctly rejects a CERTIFICATE block. -/
theorem C1_wrong_tag_accepted :
    parseCertificatePEM
      (PEMData.withBlock ⟨"RSA PRIVATE KEY", DERData.certDER demoCert⟩)
      none =
      Except.ok { privateKey := none, cert := demoCert,
                  der := DERData.certDER demoCert } ∧
    ParseKeyPEM (PEMData.withBlock ⟨"CERTIFICATE", DERData.keyDER ⟨3⟩⟩) =
      Except.error "PEM block is not of type RSA PRIVATE KEY: CERTIFICATE" :=
  ⟨rfl, rfl⟩

/-- C2: counterexample to the claim as stated. The Certificate returned
by Authority.NewCert stores the pre-sign template as its parsed form,
which differs from the parse of its stored DER (the signed bytes carry
the issuer name, embedded public key and signature that the template
lacks). -/
theorem C2_newCert_inconsistent_counterexample :
    NewAuthority none ⟨100, "root"⟩ ⟨5, ⟨1⟩⟩ 0 = Except.ok demoAuthority ∧
    demoAuthority.NewCert none ⟨10, "leaf"⟩ ⟨7, ⟨2⟩⟩ 0 =
      some (demoLeaf, demoAuthority) ∧
    x509ParseCertificate demoLeaf.der =
      Except.ok { newServerCertificate ⟨10, "leaf"⟩ 7 0 with
        issuerCommonName := "root"
        publicKey := some ⟨2⟩
        signature := some ⟨1⟩ } ∧
    ({ newServerCertificate ⟨10, "leaf"⟩ 7 0 with
        issuerCommonName := "root"
        publicKey := some ⟨2⟩
        signature := some ⟨1⟩ } : X509Certificate) ≠ demoLeaf.cert := by
  refine ⟨rfl, rfl, rfl, ?_⟩
  decide

/-- C2 (amended): every Certificate obtained by parsing — from
ParseCertificateDER, ParseCertificatePEM, or held inside an Authority
returned by ParseAuthorityDER, ParseAuthorityPEM or NewAuthority (which
reloads) — stores a parsed form equal to the parse of its stored DER
bytes. The Certificate returned by Authority.NewCert is the exception:
it keeps the pre-sign template instead, as the counterexample shows. -/
theorem C2_parsed_der_consistency :
    (∀ data k c, ParseCertificateDER data k = Except.ok c →
        x509ParseCertificate c.der = Except.ok c.cert) ∧
    (∀ data k c, ParseCertificatePEM data k = Except.ok c →
        x509ParseCertificate c.der = Except.ok c.cert) ∧
    (∀ data k a, ParseAuthorityDER data k = Except.ok a →
        x509ParseCertificate a.c.der = Except.ok a.c.cert) ∧
    (∀ data k a, ParseAuthorityPEM data k = Except.ok a →
        x509ParseCertificate a.c.der = Except.ok a.c.cert) ∧
    (∀ k o ent now a, NewAuthority k o ent now = Except.ok a →
        x509ParseCertificate a.c.der = Except.ok a.c.cert) :=
  ⟨fun data k c h => (parseCertificateDER_consistent data k c h).1,
   fun data k c h => parseCertificatePEM_consistent data k c h,
   fun data k a h => parseAuthorityDER_consistent data k a h,
   fun data k a h => parseAuthorityPEM_consistent data k a h,
   fun k o ent now a h => parseAuthorityDER_consistent _ _ a
     (by unfold NewAuthority AuthorityS.Reload at h; exact h)⟩

/-- C2 witness: the consistency theorem instantiated at a concrete
parsed certificate. -/
theorem C2_parsed_der_consistency_witness :
    x509ParseCertificate (DERData.certDER demoCert) = Except.ok demoCert :=
  C2_parsed_der_consistency.1 (DERData.certDER demoCert) none
    { privateKey := none, cert := demoCert, der := DERData.certDER demoCert }
    rfl

/-- C3: the certificate minted by authority.NewCert, once parsed from its
DER form, has issuer subject equal to the authority's own certificate
subject, and its signature verifies against the public half of the
authority's private key. -/
theorem C3_newCert_issuer_and_signature (a : AuthorityS)
    (k : Option PrivateKey) (o : CertOptions) (ent : Entropy) (now : Time)
    (ak : PrivateKey) (c : CertificateS) (a2 : AuthorityS)
    (hk : a.c.privateKey = some ak)
    (h : a.NewCert k o ent now = some (c, a2)) :
    ∃ parsed, x509ParseCertificate c.der = Except.ok parsed ∧
      parsed.issuerCommonName = a.c.cert.subjectCommonName ∧
      parsed.verifiesWith ak.privateKey.pub := by
  unfold AuthorityS.NewCert at h
  rw [hk] at h
  injection h with h
  injection h with hc ha
  subst hc
  exact ⟨_, rfl, rfl, rfl⟩

/-- C3 witness: the issuer/signature theorem instantiated at the concrete
demo authority and leaf. -/
theorem C3_newCert_issuer_and_signature_witness :
    ∃ parsed, x509ParseCertificate demoLeaf.der = Except.ok parsed ∧
      parsed.issuerCommonName = demoAuthority.c.cert.subjectCommonName ∧
      parsed.verifiesWith (RSAPrivateKey.pub ⟨1⟩) :=
  C3_newCert_issuer_and_signature demoAuthority none ⟨10, "leaf"⟩ ⟨7, ⟨2⟩⟩ 0
    ⟨⟨1⟩⟩ demoLeaf demoAuthority rfl rfl

/-- C4: the PublicKey view derived by PrivateKey.Public has a GetPEM that
always fails and returns no PEM bytes: it hands the wrapped private key
itself to the PKIX public-key marshaller, which rejects it. -/
theorem C4_public_getPEM_always_fails (k : PrivateKey) :
    k.Public.GetPEM = Except.error "x509: unsupported public key type" :=
  rfl

/-- C5: NewAuthority returns exactly the Authority obtained by
ParseAuthorityDER applied to the freshly signed DER bytes and the
resolved key (the Reload decode-after-encode normalization); hence the
in-memory parsed certificate of the returned Authority is the one parsed
from the canonical signed bytes, and it differs from the pre-sign
template. -/
theorem C5_newAuthority_reloads (k : Option PrivateKey) (o : CertOptions)
    (ent : Entropy) (now : Time) :
    NewAuthority k o ent now =
      ParseAuthorityDER
        (x509CreateCertificate (newAuthorityCertificate o ent.serialRaw now)
          (newAuthorityCertificate o ent.serialRaw now)
          (resolveKey k ent).privateKey.pub (resolveKey k ent).privateKey)
        (some (resolveKey k ent)) ∧
    ∀ a, NewAuthority k o ent now = Except.ok a →
      x509ParseCertificate a.c.der = Except.ok a.c.cert ∧
      a.c.cert ≠ newAuthorityCertificate o ent.serialRaw now := by
  refine ⟨rfl, fun a h => ?_⟩
  injection h with h
  subst h
  refine ⟨rfl, fun heq => ?_⟩
  have hsig := congrArg X509Certificate.signature heq
  simp [newAuthorityCertificate] at hsig

/-- C5 witness: the reload theorem instantiated at concrete inputs. -/
theorem C5_newAuthority_reloads_witness :
    x509ParseCertificate demoAuthority.c.der =
      Except.ok demoAuthority.c.cert ∧
    demoAuthority.c.cert ≠ newAuthorityCertificate ⟨100, "root"⟩ 5 0 :=
  (C5_newAuthority_reloads none ⟨100, "root"⟩ ⟨5, ⟨1⟩⟩ 0).2 demoAuthority rfl

/-- C6: creating an Authority with NewAuthority, encoding it with GetPEM,
and re-loading the PEM together with the same key yields an Authority
whose stored DER form is byte-identical to the original Authority's DER. -/
theorem C6_pem_roundtrip_preserves_der (k : Option PrivateKey)
    (o : CertOptions) (ent : Entropy) (now : Time) (a a2 : AuthorityS)
    (p : PEMData)
    (h1 : NewAuthority k o ent now = Except.ok a)
    (h2 : a.GetPEM = Except.ok p)
    (h3 : ParseAuthorityPEM p a.c.privateKey = Except.ok a2) :
    a2.c.der = a.c.der := by
  have hp : p = pemEncode ⟨"CERTIFICATE", a.c.der⟩ := by
    have he : a.GetPEM = Except.ok (pemEncode ⟨"CERTIFICATE", a.c.der⟩) := rfl
    rw [he] at h2
    injection h2 with h2
    exact h2.symm
  subst hp
  cases hd : a.c.der with
  | certDER tbs =>
      rw [hd] at h3
      injection h3 with h3
      subst h3
      rfl
  | keyDER kk => rw [hd] at h3; exact Except.noConfusion h3
  | pubKeyDER kk => rw [hd] at h3; exact Except.noConfusion h3
  | raw bytes => rw [hd] at h3; exact Except.noConfusion h3

/-- C6 witness: the round-trip theorem instantiated at the concrete demo
authority. -/
theorem C6_pem_roundtrip_preserves_der_witness :
    demoAuthority.c.der = demoAuthority.c.der :=
  C6_pem_roundtrip_preserves_der none ⟨100, "root"⟩ ⟨5, ⟨1⟩⟩ 0
    demoAuthority demoAuthority
    (pemEncode ⟨"CERTIFICATE", DERData.certDER demoCert⟩) rfl rfl rfl

/-- C7: decodePEMData fails on zero-length input with the zero-length
error, fails on non-empty input holding no decodable block with the
distinct no-block error, and in both cases returns no block. -/
theorem C7_decodePEMData_errors (first : Nat) (rest : List Nat) :
    decodePEMData PEMData.empty = Except.error "zero-length PEM block" ∧
    decodePEMData (PEMData.noBlock first rest) =
      Except.error "no PEM block could be decoded" ∧
    ("zero-length PEM block" : String) ≠ "no PEM block could be decoded" ∧
    (∀ b, decodePEMData PEMData.empty ≠ Except.ok b) ∧
    (∀ b, decodePEMData (PEMData.noBlock first rest) ≠ Except.ok b) :=
  ⟨rfl, rfl, by decide, fun b => Except.noConfusion, fun b => Except.noConfusion⟩

/-- C8: both certificate templates (the CA template built inside
NewAuthority and the leaf template built inside NewCert) have notBefore
equal to the wall-clock time of construction and satisfy
notAfter - notBefore = ValidFor exactly. -/
theorem C8_validity_window (o : CertOptions) (raw : Nat) (now : Time) :
    (newAuthorityCertificate o raw now).notBefore = now ∧
    (newAuthorityCertificate o raw now).notAfter -
      (newAuthorityCertificate o raw now).notBefore = o.ValidFor ∧
    (newServerCertificate o raw now).notBefore = now ∧
    (newServerCertificate o raw now).notAfter -
      (newServerCertificate o raw now).notBefore = o.ValidFor := by
  refine ⟨rfl, ?_, rfl, ?_⟩ <;>
    simp [newAuthorityCertificate, newServerCertificate]

/-- C9: the serial number drawn by randomSerialNumber is the raw uniform
draw reduced modulo 2 to the 128, hence non-negative and strictly below
2 to the 128, and both the CA template and the leaf template take their
serial from this same draw. -/
theorem C9_serial_number_range (raw : Nat) (o : CertOptions) (now : Time) :
    randomSerialNumber raw = (raw : Int) % 2 ^ 128 ∧
    0 ≤ randomSerialNumber raw ∧
    randomSerialNumber raw < 2 ^ 128 ∧
    (newAuthorityCertificate o raw now).serialNumber =
      randomSerialNumber raw ∧
    (newServerCertificate o raw now).serialNumber =
      randomSerialNumber raw := by
  refine ⟨rfl, ?_, ?_, rfl, rfl⟩
  · exact Int.emod_nonneg _ (by positivity)
  · exact Int.emod_lt_of_pos _ (by positivity)

/-- C10: authority.NewCert leaves the authority's own state unchanged:
the state returned alongside the minted certificate is the input state,
so its parsed certificate, its DER form and its private key are the same
before and after the call, and nothing about the issued certificate is
recorded in the authority. -/
theorem C10_newCert_frame (a : AuthorityS) (k : Option PrivateKey)
    (o : CertOptions) (ent : Entropy) (now : Time) (c : CertificateS)
    (a2 : AuthorityS) (h : a.NewCert k o ent now = some (c, a2)) :
    a2 = a ∧ a2.c.cert = a.c.cert ∧ a2.c.der = a.c.der ∧
      a2.c.privateKey = a.c.privateKey := by
  unfold AuthorityS.NewCert at h
  cases hk : a.c.privateKey with
  | none => rw [hk] at h; exact Option.noConfusion h
  | some ak =>
      rw [hk] at h
      injection h with h
      injection h with hc ha
      subst ha
      exact ⟨rfl, rfl, rfl, hk⟩

/-- C10 witness: the frame theorem instantiated at the concrete demo
authority. -/
theorem C10_newCert_frame_witness :
    demoAuthority = demoAuthority ∧
    demoAuthority.c.cert = demoAuthority.c.cert ∧
    demoAuthority.c.der = demoAuthority.c.der ∧
    demoAuthority.c.privateKey = demoAuthority.c.privateKey :=
  C10_newCert_frame demoAuthority none ⟨10, "leaf"⟩ ⟨7, ⟨2⟩⟩ 0
    demoLeaf demoAuthority rfl

end Badssl
